import Mathlib

/-!
Verification of the trailer-dealership application: a shallow embedding of the
data model (models.py), the model matcher, the contract lifecycle operations
(views.py) and the remote-signing handlers, with theorems settling the
specification claims about them.

Conventions of the embedding:
* SQL `NULL`-able columns become `Option`; SQL equality against a concrete
  value is `== some v` (a NULL column never satisfies an equality filter).
* Python truthiness tests (`if x:`) on optional strings / integers are made
  explicit via `truthyOptStr` / `truthyOptInt`.
* A table is a `List` of rows in the store's default order; `q.first()` is
  `List.head?` of the filtered list.
* Remote (SIGEX) HTTP calls are parameters of handler functions: each handler
  takes the outcome of the calls it may issue (`Except err response`) and
  returns the updated contract row, the HTTP-level result, and the trace of
  remote calls actually made.
-/

namespace Trailers

/-- Trailer lifecycle status (models.py, `TrailerStatusEnum`, lines 19-26). -/
inductive TrailerStatus
  | IN_STOCK
  | SOLD
  | RESERVED
  | IN_TRANSIT
  | DECOMMISSIONED
deriving DecidableEq

/-- A nomenclature record (models.py, `class Item`, lines 99-162), restricted to
the columns read by the operations verified here.  Nullable columns are
`Option`.  The misspelled column name `tent_hight_mm` is kept as in the source. -/
structure Item where
  id : Nat
  item_type : String
  article : Option String
  board_height_mm : Option Int
  axle_count : Option Int
  wheel_radius : Option String
  has_tent : Option Bool
  tent_hight_mm : Option Int
  has_jockey_wheel : Option Bool
  size_body : Option String
  is_active : Bool
deriving DecidableEq

/-- A physical trailer row (models.py, `class Trailer`, lines 167-210),
restricted to the columns the verified operations read or write. -/
structure Trailer where
  id : Nat
  vin : String
  item_id : Nat
  warehouse_id : Nat
  status : TrailerStatus
deriving DecidableEq

/-- A sales contract row (models.py, `class SalesContract`, lines 285-316),
restricted to the columns the verified claims depend on (dates, price and
payment flags are carried along by the views but never read by any claim). -/
structure SalesContract where
  id : Nat
  contract_number : Option String
  customer_id : Option Nat
  trailer_id : Option Nat
  sigex_document_id : Option String
  sigex_operation_id : Option String
  sigex_last_status : Option String
  sigex_last_sign_id : Option Int
deriving DecidableEq

/-- The relational store: the three tables the verified claims range over, each
in the store's default order. -/
structure Store where
  items : List Item
  trailers : List Trailer
  contracts : List SalesContract
deriving DecidableEq

/-- Python truthiness of an optional string: `None` and `""` are falsy. -/
def truthyOptStr : Option String → Bool
  | none => false
  | some s => s != ""

/-- Python truthiness of an optional integer: `None` and `0` are falsy. -/
def truthyOptInt : Option Int → Bool
  | none => false
  | some n => n != 0

/-- The fields of `TrailerCreateForm` (forms.py, lines 150-188) that the views
read.  `SelectField` data that may be absent is `Option`; `board_height_mm` is
a string-valued select (its choices are rendered integers); `has_jockey_wheel`
is coerced to an integer (1 = yes, 0 = no). -/
structure TrailerCreateForm where
  vin : String
  warehouse_id : Nat
  status : TrailerStatus
  size_body : Option String
  axle_count : Option Int
  wheel_radius : Option String
  board_height_mm : Option String
  tent_height_mm : Option Int
  has_jockey_wheel : Int
deriving DecidableEq

/-- Value of an all-digit character list (Python `int` on a digit string). -/
def digitsToNat (cs : List Char) : Nat :=
  cs.foldl (fun n c => n * 10 + (c.toNat - '0'.toNat)) 0

/-- Python `int` on a select-field string: an optional sign followed by
decimal digits (the rendered choices are exactly such strings). -/
def pyParseInt (s : String) : Option Int :=
  match s.data with
  | '-' :: cs =>
    if cs ≠ [] ∧ cs.all Char.isDigit then some (-(digitsToNat cs : Int)) else none
  | cs =>
    if cs ≠ [] ∧ cs.all Char.isDigit then some ((digitsToNat cs : Int)) else none

/-- Python `str.strip`: drop leading and trailing whitespace. -/
def pyStrip (s : String) : String :=
  ⟨((s.data.dropWhile Char.isWhitespace).reverse.dropWhile Char.isWhitespace).reverse⟩

/-- The board-height criterion of `_find_item_for_form` (views.py lines
169-174): skipped when the form value is falsy, otherwise parsed with `int`;
a parse failure aborts the match with a dedicated validation message. -/
def boardHeightCriterion (raw : Option String) : Except String (Option Int) :=
  if truthyOptStr raw then
    match pyParseInt (raw.getD "") with
    | some b => Except.ok (some b)
    | none => Except.error "Некорректное значение высоты борта."
  else Except.ok none

/-- The row filter built by `_find_item_for_form` (views.py lines 158-197):
`item_type='TRAILER'`, `is_active=True`, each supplied criterion as an exact
SQL equality, the jockey-wheel boolean always applied, and the special tent
handling (`tent_height_mm = 0` means no tent or unset height; any other value
requires `has_tent` and an exact height match; SQLAlchemy renders a comparison
with Python `None` as `IS NULL`). -/
def itemMatchesForm (f : TrailerCreateForm) (bh : Option Int) (i : Item) : Bool :=
  i.item_type == "TRAILER" && i.is_active
    && (if truthyOptStr f.size_body then i.size_body == f.size_body else true)
    && (if truthyOptInt f.axle_count then i.axle_count == f.axle_count else true)
    && (if truthyOptStr f.wheel_radius then i.wheel_radius == f.wheel_radius else true)
    && (match bh with
        | some b => i.board_height_mm == some b
        | none => true)
    && (i.has_jockey_wheel == some (f.has_jockey_wheel == 1))
    && (if f.tent_height_mm == some 0 then
          i.has_tent == some false || i.tent_hight_mm == none
        else
          i.has_tent == some true && i.tent_hight_mm == f.tent_height_mm)

/-- The no-match validation message of `_find_item_for_form` (views.py line 201). -/
def noMatchMessage : String :=
  "Не удалось подобрать модель по указанным характеристикам. Проверьте матрицу."

/-- views.py `_find_item_for_form` (lines 151-203): build the filter over the
item catalog and return the first matching row, or a validation-error message. -/
def find_item_for_form (catalog : List Item) (f : TrailerCreateForm) :
    Except String Item :=
  match boardHeightCriterion f.board_height_mm with
  | Except.error e => Except.error e
  | Except.ok bh =>
    match (catalog.filter (itemMatchesForm f bh)).head? with
    | some i => Except.ok i
    | none => Except.error noMatchMessage

/-- Keep only the decimal digits of a string (views.py line 1019). -/
def stripNonDigits (s : String) : String :=
  ⟨s.data.filter Char.isDigit⟩

/-- The digit-extraction step of the auto-numberer (views.py lines 1018-1025):
the digits of the stored number as an integer, or `none` when there are none
(the `continue` branch). -/
def extractNumber (s : String) : Option Nat :=
  match (stripNonDigits s).data with
  | [] => none
  | cs => some (digitsToNat cs)

/-- views.py `get_next_contract_number` (lines 1003-1027): over the non-blank
stored contract numbers, extract the digits of each, drop entries with no
digits, and return the maximum plus one, or `"1"` when nothing parses. -/
def get_next_contract_number (existing : List (Option String)) : String :=
  let rows := existing.filter (fun cn => cn != none && cn != some "")
  let numbers := rows.foldl (fun acc cn =>
    match extractNumber (cn.getD "") with
    | none => acc
    | some n => acc ++ [n]) []
  match numbers.max? with
  | none => "1"
  | some m => toString (m + 1)

/-- The auto-numbering rule as the specification words it: scan all non-blank
existing numbers, strip non-digit characters from each, take the maximum
integer value found (treating unparsable entries as absent), and return
max+1, or `"1"` if none exist.  Stated as a single `filterMap` pipeline, to be
compared with the source translation `get_next_contract_number`. -/
def specNextContractNumber (existing : List (Option String)) : String :=
  let vals := existing.filterMap (fun o =>
    match o with
    | none => none
    | some cn => if cn = "" then none else extractNumber cn)
  match vals.max? with
  | none => "1"
  | some m => toString (m + 1)

/-- views.py `is_contract_number_unique` (lines 990-996). -/
def is_contract_number_unique (contracts : List SalesContract)
    (number : Option String) (exclude_id : Option Nat) : Bool :=
  if !truthyOptStr number then true
  else
    let q : List SalesContract := contracts.filter (fun c => c.contract_number == number)
    let q2 : List SalesContract := match exclude_id with
      | some e => if e != 0 then q.filter (fun c => c.id != e) else q
      | none => q
    q2.length == 0

/-- views.py `_norm_str` (lines 998-1000): strip, mapping blank to `None`. -/
def normStr (s : Option String) : Option String :=
  let t := pyStrip (s.getD "")
  if t = "" then none else some t

/-- The `SalesContractForm` fields that `contract_create` / `contract_edit`
read and that the verified claims depend on. -/
structure SalesContractInput where
  contract_number : Option String
  customer_id : Nat
  trailer_id : Nat
deriving DecidableEq

/-- The UPDATE the ORM issues for a mutated `Trailer` object: set the status of
the trailer row(s) with the given id. -/
def setTrailerStatus (ts : List Trailer) (tid : Nat) (st : TrailerStatus) :
    List Trailer :=
  ts.map (fun t => if t.id == tid then { t with status := st } else t)

/-- The contract number `contract_create` ends up using (views.py lines
1140-1146): the normalized form value, or the auto-number when blank. -/
def resolved_contract_number (s : Store) (inp : SalesContractInput) : String :=
  match normStr inp.contract_number with
  | none => get_next_contract_number (s.contracts.map (fun c => c.contract_number))
  | some v => v

/-- Outcome of `contract_create`, one constructor per return path of the view. -/
inductive ContractCreateResult
  | created
  | trailerNotFound
  | trailerHasContract
  | trailerAlreadySold
  | numberTaken
  | commitConflict
deriving DecidableEq

/-- The new contract row inserted by `contract_create` (views.py lines
1153-1163); the SIGEX columns start out NULL. -/
def mkNewContract (newId : Nat) (cn : String) (customerId tid : Nat) :
    SalesContract :=
  { id := newId, contract_number := some cn, customer_id := some customerId,
    trailer_id := some tid, sigex_document_id := none,
    sigex_operation_id := none, sigex_last_status := none,
    sigex_last_sign_id := none }

/-- views.py `contract_create` (lines 1091-1179).  `s` is the session snapshot
the pre-checks read; `scommit` is the committed store at COMMIT time (equal to
`s` when no concurrent writer intervened between check and commit).  The
unique constraint `uq_sales_contract_trailer` (models.py lines 314-316)
re-checks `trailer_id` at commit: a concurrent duplicate raises
`IntegrityError`, which the view catches, rolls the transaction back (the
store stays `scommit`: neither the insert nor the status change survives) and
turns into a retry flash message. -/
def contract_create (s scommit : Store) (inp : SalesContractInput)
    (newId : Nat) : Store × ContractCreateResult :=
  match s.trailers.find? (fun t => t.id == inp.trailer_id) with
  | none => (scommit, ContractCreateResult.trailerNotFound)
  | some trailer =>
    if s.contracts.any (fun c => c.trailer_id == some trailer.id) then
      (scommit, ContractCreateResult.trailerHasContract)
    else if trailer.status == TrailerStatus.SOLD then
      (scommit, ContractCreateResult.trailerAlreadySold)
    else
      let cn := resolved_contract_number s inp
      if !is_contract_number_unique s.contracts (some cn) none then
        (scommit, ContractCreateResult.numberTaken)
      else if scommit.contracts.any (fun c => c.trailer_id == some trailer.id) then
        (scommit, ContractCreateResult.commitConflict)
      else
        ({ items := scommit.items,
           trailers := setTrailerStatus scommit.trailers trailer.id TrailerStatus.SOLD,
           contracts := scommit.contracts ++
             [mkNewContract newId cn inp.customer_id trailer.id] },
         ContractCreateResult.created)

/-- Outcome of `contract_edit`, one constructor per return path of the view. -/
inductive ContractEditResult
  | updated
  | notFound
  | trailerNotFound
  | trailerHasOtherContract
  | numberTaken
deriving DecidableEq

/-- The UPDATE `contract_edit` issues on the contract table (views.py lines
1257-1264): rewrite the row with the edited id. -/
def editContracts (contracts : List SalesContract) (cid : Nat)
    (cn : Option String) (customerId ntid : Nat) : List SalesContract :=
  contracts.map (fun c =>
    if c.id == cid then
      { c with contract_number := cn, customer_id := some customerId,
               trailer_id := some ntid }
    else c)

/-- views.py `contract_edit` (lines 1183-1276), sequential semantics: resolve
the edited contract and the newly selected trailer; reject when another
contract already references that trailer or the number is taken; otherwise
revert the previous trailer to IN_STOCK when no other contract still
references it, mark the new trailer SOLD, and rewrite the contract row. -/
def contract_edit (s : Store) (cid : Nat) (inp : SalesContractInput) :
    Store × ContractEditResult :=
  match s.contracts.find? (fun x => x.id == cid) with
  | none => (s, ContractEditResult.notFound)
  | some contract =>
    let old_trailer : Option Trailer :=
      contract.trailer_id.bind (fun tid => s.trailers.find? (fun t => t.id == tid))
    match s.trailers.find? (fun t => t.id == inp.trailer_id) with
    | none => (s, ContractEditResult.trailerNotFound)
    | some new_trailer =>
      if s.contracts.any (fun c =>
          c.trailer_id == some new_trailer.id && c.id != cid) then
        (s, ContractEditResult.trailerHasOtherContract)
      else
        let cn := normStr inp.contract_number
        if cn.isSome &&
            !is_contract_number_unique s.contracts cn (some cid) then
          (s, ContractEditResult.numberTaken)
        else
          let trailers1 : List Trailer :=
            match old_trailer with
            | some ot =>
              if ot.id != new_trailer.id &&
                  (s.contracts.filter (fun c =>
                    c.trailer_id == some ot.id && c.id != cid)).length == 0 then
                setTrailerStatus s.trailers ot.id TrailerStatus.IN_STOCK
              else s.trailers
            | none => s.trailers
          ({ items := s.items,
             trailers := setTrailerStatus trailers1 new_trailer.id TrailerStatus.SOLD,
             contracts := editContracts s.contracts cid cn inp.customer_id new_trailer.id },
           ContractEditResult.updated)

/-- views.py `contract_delete` (lines 1280-1296): remove the contract row,
then (after the flush) revert the referenced trailer to IN_STOCK exactly when
no contract references it any more.  Returns whether the contract existed. -/
def contract_delete (s : Store) (cid : Nat) : Store × Bool :=
  match s.contracts.find? (fun x => x.id == cid) with
  | none => (s, false)
  | some contract =>
    let contracts1 : List SalesContract := s.contracts.filter (fun x => x.id != cid)
    let trailers1 : List Trailer :=
      match contract.trailer_id.bind
          (fun tid => s.trailers.find? (fun t => t.id == tid)) with
      | none => s.trailers
      | some t =>
        if (contracts1.filter (fun c => c.trailer_id == some t.id)).length == 0 then
          setTrailerStatus s.trailers t.id TrailerStatus.IN_STOCK
        else s.trailers
    ({ items := s.items, trailers := trailers1, contracts := contracts1 }, true)

/-- views.py `trailer_create` (lines 465-489): on a valid submit, resolve the
Item via the matcher and insert a trailer whose status comes straight from the
form (the form offers IN_STOCK and SOLD). -/
def trailer_create (s : Store) (f : TrailerCreateForm) (newId : Nat) :
    Store × Except String Unit :=
  match find_item_for_form s.items f with
  | Except.error e => (s, Except.error e)
  | Except.ok item =>
    ({ items := s.items,
       trailers := s.trailers ++
         [{ id := newId, vin := pyStrip f.vin, item_id := item.id,
            warehouse_id := f.warehouse_id, status := f.status }],
       contracts := s.contracts }, Except.ok ())

/-- The invariant of claim C1: a trailer has status SOLD exactly when some
sales contract references it. -/
def soldIffContract (s : Store) : Prop :=
  ∀ t ∈ s.trailers,
    (t.status = TrailerStatus.SOLD ↔ ∃ c ∈ s.contracts, c.trailer_id = some t.id)

instance (s : Store) : Decidable (soldIffContract s) := by
  unfold soldIffContract
  infer_instance

/-! Remote-signing (SIGEX) handlers.  Each HTTP call the handler may issue is a
parameter holding that call's outcome; the returned trace lists the calls the
handler actually performed, in order.  An `Except.error` outcome models a
`requests` exception or a missing key in the remote JSON (both raise in the
Python handler before any local field is assigned). -/

/-- One remote SIGEX request, as issued by sigex_client.py. -/
inductive SigexCall
  | registerDoc
  | uploadData (docId : String)
  | addSignature (docId : String)
  | egovQr (docId : String)
  | egovOperation (docId : String) (opId : String)
  | buildDDC (docId : String) (ps : List (String × String))
deriving DecidableEq

/-- How a handler request fails: `precondition` is a Flask `abort(code, msg)`;
`upstream` is a propagated remote-call failure. -/
inductive HandlerError
  | precondition (code : Nat) (msg : String)
  | upstream (msg : String)
deriving DecidableEq

/-- views.py `_sigex_title_for_contract` (lines 1338-1340): the contract
number, or the id when the number is falsy. -/
def sigexTitleForContract (c : SalesContract) : String :=
  let num := match c.contract_number with
    | some s => if s != "" then s else toString c.id
    | none => toString c.id
  "Договор_" ++ num ++ ".pdf"

/-- views.py `contract_sigex_preregister` (lines 1361-1395): when a document id
is already stored, return it without touching the remote service; otherwise
register the document, upload the rendered PDF body, and only then persist the
new document id.  `reg` is the outcome of `POST /api` (the assigned
documentId); `upl` the outcome of `POST /api/{id}/data`. -/
def contract_sigex_preregister (c : SalesContract)
    (reg : Except String String) (upl : Except String Unit) :
    SalesContract × Except HandlerError String × List SigexCall :=
  if truthyOptStr c.sigex_document_id then
    (c, Except.ok (c.sigex_document_id.getD ""), [])
  else
    match reg with
    | Except.error e => (c, Except.error (HandlerError.upstream e), [SigexCall.registerDoc])
    | Except.ok docId =>
      match upl with
      | Except.error e =>
        (c, Except.error (HandlerError.upstream e),
         [SigexCall.registerDoc, SigexCall.uploadData docId])
      | Except.ok _ =>
        ({ c with sigex_document_id := some docId }, Except.ok docId,
         [SigexCall.registerDoc, SigexCall.uploadData docId])

/-- views.py `contract_sigex_start_qr` (lines 1427-1449): requires a stored
document id; on a successful `POST /api/{id}/egovQr` persist the operation id
and the status `"qr_started"`; a failed remote call raises before any field is
assigned. -/
def contract_sigex_start_qr (c : SalesContract)
    (remote : Except String String) :
    SalesContract × Except HandlerError String × List SigexCall :=
  if truthyOptStr c.sigex_document_id then
    let docId := c.sigex_document_id.getD ""
    match remote with
    | Except.error e => (c, Except.error (HandlerError.upstream e), [SigexCall.egovQr docId])
    | Except.ok opId =>
      ({ c with sigex_operation_id := some opId,
                sigex_last_status := some "qr_started" },
       Except.ok opId, [SigexCall.egovQr docId])
  else
    (c, Except.error (HandlerError.precondition 400 "SIGEX document not preregistered"), [])

/-- The JSON body returned by `GET /api/{docId}/egovOperation/{opId}`. -/
structure QrStatusResponse where
  status : Option String
  signId : Option Int
deriving DecidableEq

/-- views.py `contract_sigex_qr_status` (lines 1451-1467): requires both a
stored document id and operation id (otherwise `abort(400)` before any remote
call); on success persist the remote status verbatim, and the signature id as
well when the status is the terminal `"done"`. -/
def contract_sigex_qr_status (c : SalesContract)
    (remote : Except String QrStatusResponse) :
    SalesContract × Except HandlerError QrStatusResponse × List SigexCall :=
  if truthyOptStr c.sigex_document_id && truthyOptStr c.sigex_operation_id then
    let docId := c.sigex_document_id.getD ""
    let opId := c.sigex_operation_id.getD ""
    match remote with
    | Except.error e =>
      (c, Except.error (HandlerError.upstream e), [SigexCall.egovOperation docId opId])
    | Except.ok res =>
      ({ c with sigex_last_status := res.status,
                sigex_last_sign_id :=
                  if res.status == some "done" then res.signId
                  else c.sigex_last_sign_id },
       Except.ok res, [SigexCall.egovOperation docId opId])
  else
    (c, Except.error (HandlerError.precondition 400 "No active operation"), [])

/-- The query parameters `contract_sigex_ddc` sends to
`POST /api/{docId}/buildDDC` (views.py lines 1480-1489), verbatim. -/
def ddcParams (c : SalesContract) : List (String × String) :=
  [("fileName", sigexTitleForContract c),
   ("withoutDocumentVisualization", "false"),
   ("withoutSignaturesVisualization", "false"),
   ("withoutQRCodesInSignaturesVisualization", "false"),
   ("withoutID", "false"),
   ("qrWithIDLink", "false"),
   ("withLabelVerified", "true"),
   ("language", "ru")]

/-- The rendering flags claim C10 attributes to the request, following the
spec's words: show document content, show signatures, show QR codes in
signatures, hide internal IDs (`withoutID` set), a verified label, Russian.
Spec-side definition, to be compared with the source-side `ddcParams`. -/
def specDdcRenderingFlags : List (String × String) :=
  [("withoutDocumentVisualization", "false"),
   ("withoutSignaturesVisualization", "false"),
   ("withoutQRCodesInSignaturesVisualization", "false"),
   ("withoutID", "true"),
   ("withLabelVerified", "true"),
   ("language", "ru")]

/-- Value of a character of the standard base64 alphabet. -/
def b64charVal (ch : Char) : Option Nat :=
  if 'A' ≤ ch ∧ ch ≤ 'Z' then some (ch.toNat - 'A'.toNat)
  else if 'a' ≤ ch ∧ ch ≤ 'z' then some (ch.toNat - 'a'.toNat + 26)
  else if '0' ≤ ch ∧ ch ≤ '9' then some (ch.toNat - '0'.toNat + 52)
  else if ch = '+' then some 62
  else if ch = '/' then some 63
  else none

/-- Regroup base64 sextets into bytes. -/
def sextetsToBytes : List Nat → List Nat
  | a :: b :: c :: d :: rest =>
    (a * 4 + b / 16) :: ((b % 16) * 16 + c / 4) :: ((c % 4) * 64 + d) ::
      sextetsToBytes rest
  | [a, b] => [a * 4 + b / 16]
  | [a, b, c] => [a * 4 + b / 16, (b % 16) * 16 + c / 4]
  | _ => []

/-- `base64.b64decode` over the standard alphabet (padding dropped). -/
def b64decode (s : String) : List Nat :=
  sextetsToBytes (s.data.filterMap b64charVal)

/-- views.py `contract_sigex_ddc` (lines 1469-1500): requires a stored document
id; issue `POST /api/{docId}/buildDDC` with the fixed `ddcParams`, base64-decode
the `ddc` field of the response and return the bytes. -/
def contract_sigex_ddc (c : SalesContract) (remote : Except String String) :
    SalesContract × Except HandlerError (List Nat) × List SigexCall :=
  if truthyOptStr c.sigex_document_id then
    let docId := c.sigex_document_id.getD ""
    match remote with
    | Except.error e =>
      (c, Except.error (HandlerError.upstream e),
       [SigexCall.buildDDC docId (ddcParams c)])
    | Except.ok ddcB64 =>
      (c, Except.ok (b64decode ddcB64), [SigexCall.buildDDC docId (ddcParams c)])
  else
    (c, Except.error (HandlerError.precondition 400 "SIGEX document not preregistered"), [])

/-- The status of the trailer row with the given id, if any. -/
def statusOf (s : Store) (tid : Nat) : Option TrailerStatus :=
  (s.trailers.find? (fun t => t.id == tid)).map (fun t => t.status)

instance {ε α : Type} [DecidableEq ε] [DecidableEq α] :
    DecidableEq (Except ε α) := fun x y =>
  match x, y with
  | Except.error a, Except.error b =>
    if h : a = b then Decidable.isTrue (by rw [h])
    else Decidable.isFalse (fun hc => h (Except.error.inj hc))
  | Except.error _, Except.ok _ => Decidable.isFalse (fun hc => Except.noConfusion hc)
  | Except.ok _, Except.error _ => Decidable.isFalse (fun hc => Except.noConfusion hc)
  | Except.ok a, Except.ok b =>
    if h : a = b then Decidable.isTrue (by rw [h])
    else Decidable.isFalse (fun hc => h (Except.ok.inj hc))

/-! Concrete rows used by the closed-form checks below. -/

/-- A tentless active trailer model. -/
def itemA : Item :=
  { id := 1, item_type := "TRAILER", article := some "A-100",
    board_height_mm := none, axle_count := some 1, wheel_radius := some "R13",
    has_tent := some false, tent_hight_mm := none,
    has_jockey_wheel := some true, size_body := none, is_active := true }

/-- A tented active trailer model (tent height 60). -/
def itemB : Item :=
  { id := 2, item_type := "TRAILER", article := some "B-200",
    board_height_mm := none, axle_count := some 1, wheel_radius := some "R13",
    has_tent := some true, tent_hight_mm := some 60,
    has_jockey_wheel := some true, size_body := none, is_active := true }

/-- A trailer-creation form: no tent, jockey wheel present, status SOLD, all
optional criteria left unset. -/
def formNoTent : TrailerCreateForm :=
  { vin := "XW8D0001", warehouse_id := 1, status := TrailerStatus.SOLD,
    size_body := none, axle_count := none, wheel_radius := none,
    board_height_mm := none, tent_height_mm := some 0, has_jockey_wheel := 1 }

/-- A store holding only the two catalog rows. -/
def storeCatalogOnly : Store :=
  { items := [itemA, itemB], trailers := [], contracts := [] }

/-- An in-stock trailer of model itemA. -/
def trailerStock : Trailer :=
  { id := 1, vin := "VIN-1", item_id := 1, warehouse_id := 1,
    status := TrailerStatus.IN_STOCK }

/-- A sold trailer of model itemA. -/
def trailerSold : Trailer :=
  { id := 1, vin := "VIN-1", item_id := 1, warehouse_id := 1,
    status := TrailerStatus.SOLD }

/-- A contract referencing trailer 1. -/
def contract1 : SalesContract := mkNewContract 1 "1" 1 1

/-- A store with one in-stock trailer and no contracts. -/
def storeStock : Store :=
  { items := [itemA], trailers := [trailerStock], contracts := [] }

/-- The same store after a concurrent writer committed a contract on trailer 1. -/
def storeStockDup : Store :=
  { items := [itemA], trailers := [trailerStock], contracts := [contract1] }

/-- A store with trailer 1 sold under contract 1. -/
def storeSold : Store :=
  { items := [itemA], trailers := [trailerSold], contracts := [contract1] }

/-- Contract-creation input selecting trailer 1. -/
def inpNew : SalesContractInput :=
  { contract_number := some "77", customer_id := 1, trailer_id := 1 }

/-- A contract with no SIGEX state yet. -/
def contractFresh : SalesContract := mkNewContract 2 "2" 1 1

/-- The same contract with a stored SIGEX document id. -/
def contractDoc : SalesContract :=
  { contractFresh with sigex_document_id := some "doc-1" }

/-! Helper lemmas shared by the claim theorems. -/

theorem mem_and_pred_of_head?_filter {α : Type} {p : α → Bool} {l : List α}
    {a : α} (h : (l.filter p).head? = some a) : a ∈ l ∧ p a = true := by
  have hm : a ∈ l.filter p := List.mem_of_mem_head? (by simp [h])
  simpa using List.mem_filter.mp hm

theorem matches_of_find_item_ok {catalog : List Item} {f : TrailerCreateForm}
    {i : Item} (h : find_item_for_form catalog f = Except.ok i) :
    ∃ bh, boardHeightCriterion f.board_height_mm = Except.ok bh ∧
      itemMatchesForm f bh i = true := by
  unfold find_item_for_form at h
  cases hb : boardHeightCriterion f.board_height_mm with
  | error e =>
    simp only [hb] at h
    exact Except.noConfusion h
  | ok bh =>
    simp only [hb] at h
    cases hh : (catalog.filter (itemMatchesForm f bh)).head? with
    | none =>
      simp only [hh] at h
      exact Except.noConfusion h
    | some j =>
      simp only [hh, Except.ok.injEq] at h
      subst h
      exact ⟨bh, rfl, (mem_and_pred_of_head?_filter hh).2⟩

/-- Claim C3: with `tent_height_mm = 0` the matcher only returns items with no
tent or an unset tent height; with `tent_height_mm = t > 0` it only returns
items with a tent of exactly that height. -/
theorem find_item_tent_sentinel (catalog : List Item) (f : TrailerCreateForm)
    (i : Item) :
    (f.tent_height_mm = some 0 → find_item_for_form catalog f = Except.ok i →
      i.has_tent = some false ∨ i.tent_hight_mm = none) ∧
    (∀ t : Int, 0 < t → f.tent_height_mm = some t →
      find_item_for_form catalog f = Except.ok i →
      i.has_tent = some true ∧ i.tent_hight_mm = some t) := by
  constructor
  · intro h0 hok
    obtain ⟨bh, _, hm⟩ := matches_of_find_item_ok hok
    have hb : (f.tent_height_mm == some 0) = true := by rw [h0]; simp
    simp only [itemMatchesForm, hb, if_true, Bool.and_eq_true] at hm
    simpa using hm.2
  · intro t ht hte hok
    obtain ⟨bh, _, hm⟩ := matches_of_find_item_ok hok
    have hb : (f.tent_height_mm == some 0) = false := by
      rw [hte]; simp; omega
    simp only [itemMatchesForm, hb, if_false, Bool.and_eq_true] at hm
    have h2 := hm.2
    rw [hte] at h2
    simpa using h2

/-- Claim C3 witness at a concrete catalog and form. -/
theorem find_item_tent_sentinel_witness :
    itemA.has_tent = some false ∨ itemA.tent_hight_mm = none :=
  (find_item_tent_sentinel [itemB, itemA] formNoTent itemA).1 rfl (by decide)

/-- Claim C4: once the board-height criterion parses, the matcher returns
exactly the first catalog item (store order) passing all the filters, and when
no item passes it returns the user-facing no-match validation message. -/
theorem find_item_first_match (catalog : List Item) (f : TrailerCreateForm)
    (bh : Option Int)
    (hbh : boardHeightCriterion f.board_height_mm = Except.ok bh) :
    (∀ i, find_item_for_form catalog f = Except.ok i ↔
        (catalog.filter (itemMatchesForm f bh)).head? = some i) ∧
    (find_item_for_form catalog f = Except.error noMatchMessage ↔
        catalog.filter (itemMatchesForm f bh) = []) := by
  have hred : find_item_for_form catalog f =
      (match (catalog.filter (itemMatchesForm f bh)).head? with
        | some i => Except.ok i
        | none => Except.error noMatchMessage) := by
    unfold find_item_for_form
    rw [hbh]
  rw [hred]
  rcases hfl : catalog.filter (itemMatchesForm f bh) with _ | ⟨x, xs⟩
  · constructor
    · intro i
      simp
    · simp
  · constructor
    · intro i
      simp [eq_comm]
    · simp

/-- Claim C4 witness at a concrete catalog and form. -/
theorem find_item_first_match_witness :
    find_item_for_form [itemB, itemA] formNoTent = Except.ok itemA :=
  ((find_item_first_match [itemB, itemA] formNoTent none (by decide)).1 itemA).mpr
    (by decide)

theorem foldl_extract_eq_filterMap (l : List (Option String)) (acc : List Nat) :
    l.foldl (fun acc cn =>
        match extractNumber (cn.getD "") with
        | none => acc
        | some n => acc ++ [n]) acc
      = acc ++ l.filterMap (fun cn => extractNumber (cn.getD "")) := by
  induction l generalizing acc with
  | nil => simp
  | cons x xs ih =>
    cases hfx : extractNumber (x.getD "") <;>
      simp [List.filterMap_cons, hfx, ih]

theorem filterMap_filter_blank (existing : List (Option String)) :
    (existing.filter (fun cn => cn != none && cn != some "")).filterMap
        (fun cn => extractNumber (cn.getD ""))
      = existing.filterMap (fun o =>
          match o with
          | none => none
          | some cn => if cn = "" then none else extractNumber cn) := by
  induction existing with
  | nil => rfl
  | cons x xs ih =>
    cases x with
    | none => simpa using ih
    | some s =>
      by_cases hs : s = "" <;>
        simp [List.filter_cons, List.filterMap_cons, hs, ih]

theorem get_next_eq_spec (existing : List (Option String)) :
    get_next_contract_number existing = specNextContractNumber existing := by
  unfold get_next_contract_number specNextContractNumber
  simp only [foldl_extract_eq_filterMap, List.nil_append, filterMap_filter_blank]

/-- Claim C7: the auto-numbering scans the non-blank stored numbers, extracts
the digits of each, treats digitless entries as absent and returns the maximum
plus one (or "1"); on the stored numbers 5, CN-12, 7 it returns "13". -/
theorem get_next_contract_number_correct :
    (∀ existing, get_next_contract_number existing = specNextContractNumber existing) ∧
    get_next_contract_number [some "5", some "CN-12", some "7"] = "13" :=
  ⟨get_next_eq_spec, by decide⟩

/-- Claim C2: once the pre-checks pass, contract creation either commits the
trailer-status change and the contract insert together as one state change, or
— when a concurrent duplicate contract exists at commit time — rolls back
entirely (the store stays exactly the commit-time store, with no new contract
and no status change) and reports the user-retryable conflict result. -/
theorem contract_create_atomic_commit (s scommit : Store)
    (inp : SalesContractInput) (newId : Nat) (trailer : Trailer)
    (hfind : s.trailers.find? (fun t => t.id == inp.trailer_id) = some trailer)
    (hpre : s.contracts.any (fun c => c.trailer_id == some trailer.id) = false)
    (hsold : (trailer.status == TrailerStatus.SOLD) = false)
    (hnum : is_contract_number_unique s.contracts
      (some (resolved_contract_number s inp)) none = true) :
    (scommit.contracts.any (fun c => c.trailer_id == some trailer.id) = true →
      contract_create s scommit inp newId =
        (scommit, ContractCreateResult.commitConflict)) ∧
    (scommit.contracts.any (fun c => c.trailer_id == some trailer.id) = false →
      contract_create s scommit inp newId =
        ({ items := scommit.items,
           trailers := setTrailerStatus scommit.trailers trailer.id TrailerStatus.SOLD,
           contracts := scommit.contracts ++
             [mkNewContract newId (resolved_contract_number s inp)
               inp.customer_id trailer.id] },
         ContractCreateResult.created)) := by
  constructor <;> intro hcommit <;>
    simp [contract_create, hfind, hpre, hsold, hnum, hcommit]

/-- Claim C2 witness: a concrete conflicting commit rolls back and reports the
conflict. -/
theorem contract_create_atomic_commit_witness :
    contract_create storeStock storeStockDup inpNew 9 =
      (storeStockDup, ContractCreateResult.commitConflict) :=
  (contract_create_atomic_commit storeStock storeStockDup inpNew 9 trailerStock
    (by decide) (by decide) (by decide) (by decide)).1 (by decide)

/-- Claim C1 counterexample: trailer creation takes the status straight from
the form (whose choices include SOLD), so a SOLD trailer with no contract
referencing it is creatable from a state satisfying the invariant; the
SOLD-iff-contracted invariant is not preserved by `trailer_create`. -/
theorem trailer_create_breaks_sold_invariant :
    soldIffContract storeCatalogOnly ∧
    ¬ soldIffContract (trailer_create storeCatalogOnly formNoTent 1).1 := by
  constructor
  · decide
  · decide

theorem eq_of_mem_same_id {contracts : List SalesContract}
    (hnodup : (contracts.map (fun c => c.id)).Nodup)
    {c1 c2 : SalesContract} (h1 : c1 ∈ contracts) (h2 : c2 ∈ contracts)
    (h : c1.id = c2.id) : c1 = c2 :=
  List.inj_on_of_nodup_map hnodup h1 h2 h

theorem find?_eq_none_of_bind_none {contract : SalesContract}
    {trailers : List Trailer}
    (hot : contract.trailer_id.bind
      (fun tid => trailers.find? (fun t => t.id == tid)) = none)
    {t : Trailer} (ht : t ∈ trailers) : contract.trailer_id ≠ some t.id := by
  intro hsome
  rw [hsome] at hot
  simp only [Option.bind_eq_bind, Option.some_bind] at hot
  have := List.find?_eq_none.mp hot t ht
  simp at this

/-- Deleting one contract row keeps exactly the rows with a different id. -/
theorem mem_delete_filter {contracts : List SalesContract} {cid : Nat}
    {c : SalesContract} :
    c ∈ contracts.filter (fun x => x.id != cid) ↔
      c ∈ contracts ∧ c.id ≠ cid := by
  simp [List.mem_filter]

theorem delete_preserves_inv (s : Store) (hinv : soldIffContract s)
    (hnodup : (s.contracts.map (fun c => c.id)).Nodup) (cid : Nat) :
    soldIffContract (contract_delete s cid).1 := by
  unfold contract_delete
  cases hfc : s.contracts.find? (fun x => x.id == cid) with
  | none => exact hinv
  | some contract =>
    have hmem : contract ∈ s.contracts := List.mem_of_find?_eq_some hfc
    have hcid : contract.id = cid := by simpa using List.find?_some hfc
    show soldIffContract
      { items := s.items,
        trailers :=
          match contract.trailer_id.bind
              (fun tid => s.trailers.find? (fun t => t.id == tid)) with
          | none => s.trailers
          | some t =>
            if ((s.contracts.filter (fun x => x.id != cid)).filter
                (fun c => c.trailer_id == some t.id)).length == 0 then
              setTrailerStatus s.trailers t.id TrailerStatus.IN_STOCK
            else s.trailers,
        contracts := s.contracts.filter (fun x => x.id != cid) }
    cases hot : contract.trailer_id.bind
        (fun tid => s.trailers.find? (fun t => t.id == tid)) with
    | none =>
      -- the deleted contract references no existing trailer row
      intro t2 ht2
      rw [hinv t2 ht2]
      constructor
      · rintro ⟨c, hc, href⟩
        refine ⟨c, mem_delete_filter.mpr ⟨hc, ?_⟩, href⟩
        intro hceq
        have : c = contract := eq_of_mem_same_id hnodup hc hmem (by rw [hceq, hcid])
        subst this
        exact find?_eq_none_of_bind_none hot ht2 href
      · rintro ⟨c, hc, href⟩
        exact ⟨c, (mem_delete_filter.mp hc).1, href⟩
    | some ot =>
      obtain ⟨tid0, htid0, hfind0⟩ := Option.bind_eq_some.mp hot
      have hotmem : ot ∈ s.trailers := List.mem_of_find?_eq_some hfind0
      have hotid : ot.id = tid0 := by
        have h2 := List.find?_some hfind0
        simpa using h2
      have hotref : contract.trailer_id = some ot.id := by
        rw [htid0, hotid]
      show soldIffContract
        { items := s.items,
          trailers :=
            if ((s.contracts.filter (fun x => x.id != cid)).filter
                (fun c => c.trailer_id == some ot.id)).length == 0 then
              setTrailerStatus s.trailers ot.id TrailerStatus.IN_STOCK
            else s.trailers,
          contracts := s.contracts.filter (fun x => x.id != cid) }
      by_cases hlen : (((s.contracts.filter (fun x => x.id != cid)).filter
          (fun c => c.trailer_id == some ot.id)).length == 0) = true
      · -- revert branch: no contract references the trailer any more
        have hempty : (s.contracts.filter (fun x => x.id != cid)).filter
            (fun c => c.trailer_id == some ot.id) = [] := by
          simpa [List.length_eq_zero] using hlen
        rw [if_pos hlen]
        intro t2 ht2
        simp only [setTrailerStatus, List.mem_map] at ht2
        obtain ⟨t0, ht0, heq⟩ := ht2
        subst heq
        by_cases h1 : (t0.id == ot.id) = true
        · have hid : t0.id = ot.id := by simpa using h1
          simp only [h1, if_true]
          constructor
          · intro hst
            exact absurd hst (by simp)
          · rintro ⟨c, hc, href⟩
            exfalso
            have : c ∈ (s.contracts.filter (fun x => x.id != cid)).filter
                (fun c => c.trailer_id == some ot.id) := by
              refine List.mem_filter.mpr ⟨hc, ?_⟩
              simp only [hid] at href
              simp [href]
            rw [hempty] at this
            simp at this
        · have hid : ¬ t0.id = ot.id := by simpa using h1
          rw [Bool.not_eq_true] at h1
          simp only [h1, Bool.false_eq_true, if_false]
          rw [hinv t0 ht0]
          constructor
          · rintro ⟨c, hc, href⟩
            refine ⟨c, mem_delete_filter.mpr ⟨hc, ?_⟩, href⟩
            intro hceq
            have : c = contract := eq_of_mem_same_id hnodup hc hmem (by rw [hceq, hcid])
            subst this
            rw [hotref] at href
            exact hid (by simpa using href.symm)
          · rintro ⟨c, hc, href⟩
            exact ⟨c, (mem_delete_filter.mp hc).1, href⟩
      · -- keep branch: another contract still references the trailer
        rw [Bool.not_eq_true] at hlen
        obtain ⟨c2, hc2⟩ : ∃ c2, c2 ∈ (s.contracts.filter (fun x => x.id != cid)).filter
            (fun c => c.trailer_id == some ot.id) := by
          rcases hl : (s.contracts.filter (fun x => x.id != cid)).filter
              (fun c => c.trailer_id == some ot.id) with _ | ⟨y, ys⟩
          · rw [hl] at hlen; simp at hlen
          · exact ⟨y, by rw [hl]; simp⟩
        have hc2m := List.mem_filter.mp hc2
        have hc2ref : c2.trailer_id = some ot.id := by simpa using hc2m.2
        have hc2in := hc2m.1
        rw [if_neg (by rw [hlen]; simp)]
        intro t2 ht2
        rw [hinv t2 ht2]
        constructor
        · rintro ⟨c, hc, href⟩
          by_cases hceq : c.id = cid
          · have : c = contract := eq_of_mem_same_id hnodup hc hmem (by rw [hceq, hcid])
            subst this
            rw [hotref] at href
            refine ⟨c2, ?_, ?_⟩
            · exact hc2in
            · rw [hc2ref, href]
          · exact ⟨c, mem_delete_filter.mpr ⟨hc, hceq⟩, href⟩
        · rintro ⟨c, hc, href⟩
          exact ⟨c, (mem_delete_filter.mp hc).1, href⟩

theorem create_preserves_inv (s : Store) (hinv : soldIffContract s)
    (inp : SalesContractInput) (newId : Nat) :
    soldIffContract (contract_create s s inp newId).1 := by
  unfold contract_create
  cases hf : s.trailers.find? (fun t => t.id == inp.trailer_id) with
  | none => exact hinv
  | some trailer =>
    show soldIffContract
      (if s.contracts.any (fun c => c.trailer_id == some trailer.id) then
        (s, ContractCreateResult.trailerHasContract)
      else if trailer.status == TrailerStatus.SOLD then
        (s, ContractCreateResult.trailerAlreadySold)
      else
        if !is_contract_number_unique s.contracts
            (some (resolved_contract_number s inp)) none then
          (s, ContractCreateResult.numberTaken)
        else if s.contracts.any (fun c => c.trailer_id == some trailer.id) then
          (s, ContractCreateResult.commitConflict)
        else
          ({ items := s.items,
             trailers := setTrailerStatus s.trailers trailer.id TrailerStatus.SOLD,
             contracts := s.contracts ++
               [mkNewContract newId (resolved_contract_number s inp)
                 inp.customer_id trailer.id] },
           ContractCreateResult.created)).1
    by_cases hdup : (s.contracts.any (fun c => c.trailer_id == some trailer.id)) = true
    · rw [if_pos hdup]
      exact hinv
    · rw [Bool.not_eq_true] at hdup
      rw [if_neg (by rw [hdup]; simp)]
      by_cases hsold : (trailer.status == TrailerStatus.SOLD) = true
      · rw [if_pos hsold]
        exact hinv
      · rw [if_neg (by rw [Bool.not_eq_true] at hsold; rw [hsold]; simp)]
        by_cases hnum : (!is_contract_number_unique s.contracts
            (some (resolved_contract_number s inp)) none) = true
        · rw [if_pos hnum]
          exact hinv
        · rw [Bool.not_eq_true] at hnum
          rw [if_neg (by rw [hnum]; simp), if_neg (by rw [hdup]; simp)]
          -- success path
          intro t2 ht2
          simp only [setTrailerStatus, List.mem_map] at ht2
          obtain ⟨t0, ht0, heq⟩ := ht2
          subst heq
          by_cases h1 : (t0.id == trailer.id) = true
          · have hid : t0.id = trailer.id := by simpa using h1
            simp only [h1, if_true]
            constructor
            · intro _
              refine ⟨mkNewContract newId (resolved_contract_number s inp)
                  inp.customer_id trailer.id, ?_, ?_⟩
              · simp
              · simp [mkNewContract, hid]
            · intro _
              trivial
          · have hid : ¬ t0.id = trailer.id := by simpa using h1
            rw [Bool.not_eq_true] at h1
            simp only [h1, Bool.false_eq_true, if_false]
            rw [hinv t0 ht0]
            constructor
            · rintro ⟨c, hc, href⟩
              exact ⟨c, by simp [hc], href⟩
            · rintro ⟨c, hc, href⟩
              rcases List.mem_append.mp hc with hc1 | hc1
              · exact ⟨c, hc1, href⟩
              · exfalso
                simp only [List.mem_singleton] at hc1
                subst hc1
                simp only [mkNewContract, Option.some.injEq] at href
                exact hid href.symm

theorem editContracts_ref_new {contracts : List SalesContract} {cid : Nat}
    (cn : Option String) (customerId ntid : Nat) {contract : SalesContract}
    (hmem : contract ∈ contracts) (hcid : contract.id = cid) :
    ∃ c2 ∈ editContracts contracts cid cn customerId ntid,
      c2.trailer_id = some ntid := by
  unfold editContracts
  refine ⟨_, List.mem_map_of_mem _ hmem, ?_⟩
  simp [hcid]

theorem editContracts_ref_other {contracts : List SalesContract} {cid : Nat}
    {cn : Option String} {customerId ntid tid : Nat} (hne : tid ≠ ntid) :
    (∃ c2 ∈ editContracts contracts cid cn customerId ntid,
        c2.trailer_id = some tid)
      ↔ ∃ c ∈ contracts, (c.id == cid) = false ∧ c.trailer_id = some tid := by
  unfold editContracts
  constructor
  · rintro ⟨c2, hc2, href⟩
    obtain ⟨c, hc, heq⟩ := List.mem_map.mp hc2
    by_cases h : (c.id == cid) = true
    · exfalso
      rw [← heq] at href
      simp only [h, if_true, Option.some.injEq] at href
      exact hne href.symm
    · rw [Bool.not_eq_true] at h
      refine ⟨c, hc, h, ?_⟩
      rw [← heq] at href
      simpa [h] using href
  · rintro ⟨c, hc, hid, href⟩
    refine ⟨c, List.mem_map.mpr ⟨c, hc, ?_⟩, href⟩
    simp [hid]

theorem edit_untouched_iff (s : Store) (hinv : soldIffContract s)
    (hnodup : (s.contracts.map (fun c => c.id)).Nodup)
    {contract : SalesContract} {cid : Nat} (hmem : contract ∈ s.contracts)
    (hcid : contract.id = cid) {ntid : Nat}
    (cn : Option String) (customerId : Nat)
    {t1 : Trailer} (ht1 : t1 ∈ s.trailers) (hne : t1.id ≠ ntid)
    (hsafe : contract.trailer_id = some t1.id →
      ∃ c2 ∈ s.contracts, (c2.id == cid) = false ∧ c2.trailer_id = some t1.id) :
    (t1.status = TrailerStatus.SOLD ↔
      ∃ c2 ∈ editContracts s.contracts cid cn customerId ntid,
        c2.trailer_id = some t1.id) := by
  rw [editContracts_ref_other hne, hinv t1 ht1]
  constructor
  · rintro ⟨c, hc, href⟩
    by_cases h : (c.id == cid) = true
    · have hceq : c = contract := by
        apply eq_of_mem_same_id hnodup hc hmem
        rw [hcid]
        simpa using h
      subst hceq
      exact hsafe href
    · rw [Bool.not_eq_true] at h
      exact ⟨c, hc, h, href⟩
  · rintro ⟨c, hc, _, href⟩
    exact ⟨c, hc, href⟩

theorem edit_inv_single (s : Store) (hinv : soldIffContract s)
    (hnodup : (s.contracts.map (fun c => c.id)).Nodup)
    {contract : SalesContract} {cid : Nat} (hmem : contract ∈ s.contracts)
    (hcid : contract.id = cid) {new_trailer : Trailer}
    (cn : Option String) (customerId : Nat)
    (hsafe : ∀ t0 ∈ s.trailers, t0.id ≠ new_trailer.id →
      contract.trailer_id = some t0.id →
      ∃ c2 ∈ s.contracts, (c2.id == cid) = false ∧ c2.trailer_id = some t0.id) :
    soldIffContract
      { items := s.items,
        trailers := setTrailerStatus s.trailers new_trailer.id TrailerStatus.SOLD,
        contracts := editContracts s.contracts cid cn customerId new_trailer.id } := by
  intro t2 ht2
  simp only [setTrailerStatus, List.mem_map] at ht2
  obtain ⟨t0, ht0, heq⟩ := ht2
  subst heq
  by_cases h1 : (t0.id == new_trailer.id) = true
  · have hid : t0.id = new_trailer.id := by simpa using h1
    simp only [h1, if_true]
    constructor
    · intro _
      have hex := editContracts_ref_new cn customerId new_trailer.id hmem hcid
      simpa [hid] using hex
    · intro _
      trivial
  · have hid : ¬ t0.id = new_trailer.id := by simpa using h1
    rw [Bool.not_eq_true] at h1
    simp only [h1, Bool.false_eq_true, if_false]
    exact edit_untouched_iff s hinv hnodup hmem hcid cn customerId ht0 hid
      (hsafe t0 ht0 hid)

theorem edit_inv_revert (s : Store) (hinv : soldIffContract s)
    (hnodup : (s.contracts.map (fun c => c.id)).Nodup)
    {contract : SalesContract} {cid : Nat} (hmem : contract ∈ s.contracts)
    (hcid : contract.id = cid) {new_trailer ot : Trailer}
    (cn : Option String) (customerId : Nat)
    (hotref : contract.trailer_id = some ot.id)
    (hne : ot.id ≠ new_trailer.id)
    (hno : ∀ c ∈ s.contracts, c.trailer_id = some ot.id → c.id = cid) :
    soldIffContract
      { items := s.items,
        trailers := setTrailerStatus
          (setTrailerStatus s.trailers ot.id TrailerStatus.IN_STOCK)
          new_trailer.id TrailerStatus.SOLD,
        contracts := editContracts s.contracts cid cn customerId new_trailer.id } := by
  intro t2 ht2
  simp only [setTrailerStatus, List.mem_map] at ht2
  obtain ⟨t1, ⟨t0, ht0, heq0⟩, heq1⟩ := ht2
  subst heq0
  subst heq1
  by_cases h0 : (t0.id == ot.id) = true
  · -- the reverted trailer: IN_STOCK, and no contract references it any more
    have hid0 : t0.id = ot.id := by simpa using h0
    have hne2 : t0.id ≠ new_trailer.id := by rw [hid0]; exact hne
    have hbeq : (t0.id == new_trailer.id) = false := by simpa using hne2
    simp only [h0, if_true, hbeq, Bool.false_eq_true, if_false]
    constructor
    · intro hst
      exact absurd hst (by simp)
    · rintro ⟨c2, hc2, href⟩
      exfalso
      have href2 : c2.trailer_id = some t0.id := by simpa using href
      have hOr := (@editContracts_ref_other s.contracts cid cn customerId
          new_trailer.id t0.id hne2).mp ⟨c2, hc2, href2⟩
      obtain ⟨c, hc, hidf, hrefc⟩ := hOr
      have h2 := hno c hc (by rw [hrefc, hid0])
      rw [h2] at hidf
      simp at hidf
  · have hid0 : ¬ t0.id = ot.id := by simpa using h0
    rw [Bool.not_eq_true] at h0
    simp only [h0, Bool.false_eq_true, if_false]
    by_cases h1 : (t0.id == new_trailer.id) = true
    · have hid : t0.id = new_trailer.id := by simpa using h1
      simp only [h1, if_true]
      constructor
      · intro _
        have hex := editContracts_ref_new cn customerId new_trailer.id hmem hcid
        simpa [hid] using hex
      · intro _
        trivial
    · have hid : ¬ t0.id = new_trailer.id := by simpa using h1
      rw [Bool.not_eq_true] at h1
      simp only [h1, Bool.false_eq_true, if_false]
      refine edit_untouched_iff s hinv hnodup hmem hcid cn customerId ht0 hid ?_
      intro href
      exfalso
      rw [hotref] at href
      exact hid0 (by simpa using href.symm)

theorem edit_preserves_inv (s : Store) (hinv : soldIffContract s)
    (hnodup : (s.contracts.map (fun c => c.id)).Nodup)
    (cid : Nat) (inp : SalesContractInput) :
    soldIffContract (contract_edit s cid inp).1 := by
  unfold contract_edit
  cases hfc : s.contracts.find? (fun x => x.id == cid) with
  | none => exact hinv
  | some contract =>
    have hmem : contract ∈ s.contracts := List.mem_of_find?_eq_some hfc
    have hcid : contract.id = cid := by simpa using List.find?_some hfc
    show soldIffContract
      (match s.trailers.find? (fun (t : Trailer) => t.id == inp.trailer_id) with
       | none => (s, ContractEditResult.trailerNotFound)
       | some new_trailer =>
         if s.contracts.any (fun (c : SalesContract) =>
             c.trailer_id == some new_trailer.id && c.id != cid) then
           (s, ContractEditResult.trailerHasOtherContract)
         else
           if (normStr inp.contract_number).isSome &&
               !is_contract_number_unique s.contracts
                 (normStr inp.contract_number) (some cid) then
             (s, ContractEditResult.numberTaken)
           else
             ({ items := s.items,
                trailers := setTrailerStatus
                  (match contract.trailer_id.bind
                      (fun (tid : Nat) => s.trailers.find? (fun (t : Trailer) => t.id == tid)) with
                   | some ot =>
                     if ot.id != new_trailer.id &&
                         (s.contracts.filter (fun (c : SalesContract) =>
                           c.trailer_id == some ot.id && c.id != cid)).length == 0 then
                       setTrailerStatus s.trailers ot.id TrailerStatus.IN_STOCK
                     else s.trailers
                   | none => s.trailers)
                  new_trailer.id TrailerStatus.SOLD,
                contracts := editContracts s.contracts cid
                  (normStr inp.contract_number) inp.customer_id new_trailer.id },
              ContractEditResult.updated)).1
    cases hft : s.trailers.find? (fun (t : Trailer) => t.id == inp.trailer_id) with
    | none => exact hinv
    | some new_trailer =>
      show soldIffContract
        (if s.contracts.any (fun (c : SalesContract) =>
             c.trailer_id == some new_trailer.id && c.id != cid) then
           (s, ContractEditResult.trailerHasOtherContract)
         else
           if (normStr inp.contract_number).isSome &&
               !is_contract_number_unique s.contracts
                 (normStr inp.contract_number) (some cid) then
             (s, ContractEditResult.numberTaken)
           else
             ({ items := s.items,
                trailers := setTrailerStatus
                  (match contract.trailer_id.bind
                      (fun (tid : Nat) => s.trailers.find? (fun (t : Trailer) => t.id == tid)) with
                   | some ot =>
                     if ot.id != new_trailer.id &&
                         (s.contracts.filter (fun (c : SalesContract) =>
                           c.trailer_id == some ot.id && c.id != cid)).length == 0 then
                       setTrailerStatus s.trailers ot.id TrailerStatus.IN_STOCK
                     else s.trailers
                   | none => s.trailers)
                  new_trailer.id TrailerStatus.SOLD,
                contracts := editContracts s.contracts cid
                  (normStr inp.contract_number) inp.customer_id new_trailer.id },
              ContractEditResult.updated)).1
      by_cases hdup : (s.contracts.any (fun c =>
          c.trailer_id == some new_trailer.id && c.id != cid)) = true
      · rw [if_pos hdup]
        exact hinv
      · rw [Bool.not_eq_true] at hdup
        rw [if_neg (by rw [hdup]; simp)]
        by_cases hnum : ((normStr inp.contract_number).isSome &&
            !is_contract_number_unique s.contracts
              (normStr inp.contract_number) (some cid)) = true
        · rw [if_pos hnum]
          exact hinv
        · rw [Bool.not_eq_true] at hnum
          rw [if_neg (by rw [hnum]; simp)]
          cases hot : contract.trailer_id.bind
              (fun (tid : Nat) => s.trailers.find? (fun (t : Trailer) => t.id == tid)) with
          | none =>
            refine edit_inv_single s hinv hnodup hmem hcid
              (normStr inp.contract_number) inp.customer_id ?_
            intro t0 ht0 _ href
            exact absurd href (find?_eq_none_of_bind_none hot ht0)
          | some ot =>
            obtain ⟨tid0, htid0, hfind0⟩ := Option.bind_eq_some.mp hot
            have hotid : ot.id = tid0 := by
              have h2 := List.find?_some hfind0
              simpa using h2
            have hotref : contract.trailer_id = some ot.id := by
              rw [htid0, hotid]
            show soldIffContract
              { items := s.items,
                trailers := setTrailerStatus
                  (if ot.id != new_trailer.id &&
                       (s.contracts.filter (fun c =>
                         c.trailer_id == some ot.id && c.id != cid)).length == 0 then
                     setTrailerStatus s.trailers ot.id TrailerStatus.IN_STOCK
                   else s.trailers)
                  new_trailer.id TrailerStatus.SOLD,
                contracts := editContracts s.contracts cid
                  (normStr inp.contract_number) inp.customer_id new_trailer.id }
            by_cases hcond : (ot.id != new_trailer.id &&
                (s.contracts.filter (fun c =>
                  c.trailer_id == some ot.id && c.id != cid)).length == 0) = true
            · rw [if_pos hcond]
              rw [Bool.and_eq_true] at hcond
              have hne : ot.id ≠ new_trailer.id := by simpa using hcond.1
              have hempty : s.contracts.filter (fun c =>
                  c.trailer_id == some ot.id && c.id != cid) = [] := by
                simpa [List.length_eq_zero] using hcond.2
              refine edit_inv_revert s hinv hnodup hmem hcid
                (normStr inp.contract_number) inp.customer_id hotref hne ?_
              intro c hc hcref
              by_contra hccid
              have : c ∈ s.contracts.filter (fun c =>
                  c.trailer_id == some ot.id && c.id != cid) := by
                refine List.mem_filter.mpr ⟨hc, ?_⟩
                simp [hcref, hccid]
              rw [hempty] at this
              simp at this
            · rw [if_neg (by rw [Bool.not_eq_true] at hcond; rw [hcond]; simp)]
              rw [Bool.not_eq_true] at hcond
              refine edit_inv_single s hinv hnodup hmem hcid
                (normStr inp.contract_number) inp.customer_id ?_
              intro t0 ht0 hne0 href
              have hid0 : t0.id = ot.id := by
                rw [hotref] at href
                simpa using href.symm
              by_cases hA : (ot.id != new_trailer.id) = true
              · have hB : ((s.contracts.filter (fun c =>
                    c.trailer_id == some ot.id && c.id != cid)).length == 0) = false := by
                  rcases Bool.eq_false_or_eq_true ((s.contracts.filter (fun c =>
                      c.trailer_id == some ot.id && c.id != cid)).length == 0) with hB2 | hB2
                  · rw [hA, hB2] at hcond
                    simp at hcond
                  · exact hB2
                obtain ⟨c2, hc2⟩ : ∃ c2, c2 ∈ s.contracts.filter (fun c =>
                    c.trailer_id == some ot.id && c.id != cid) := by
                  rcases hl : s.contracts.filter (fun c =>
                      c.trailer_id == some ot.id && c.id != cid) with _ | ⟨y, ys⟩
                  · rw [hl] at hB; simp at hB
                  · exact ⟨y, by rw [hl]; simp⟩
                obtain ⟨hc2mem, hc2pred⟩ := List.mem_filter.mp hc2
                rw [Bool.and_eq_true] at hc2pred
                obtain ⟨hc2ref, hc2id⟩ := hc2pred
                refine ⟨c2, hc2mem, ?_, ?_⟩
                · simpa using hc2id
                · rw [hid0]
                  simpa using hc2ref
              · rw [Bool.not_eq_true] at hA
                have hAe : ot.id = new_trailer.id := by simpa using hA
                exact absurd (by rw [hid0, hAe]) hne0

/-- Claim C1 (amended): from any state satisfying the SOLD-iff-contracted
invariant (with primary-key-unique contract ids), contract creation, contract
editing and contract deletion all preserve the invariant; trailer create/edit
do not preserve it, because they write the status straight from the form (see
the counterexample). -/
theorem sold_invariant_preserved_by_contract_ops (s : Store)
    (hinv : soldIffContract s)
    (hnodup : (s.contracts.map (fun c => c.id)).Nodup) :
    (∀ inp newId, soldIffContract (contract_create s s inp newId).1) ∧
    (∀ cid inp, soldIffContract (contract_edit s cid inp).1) ∧
    (∀ cid, soldIffContract (contract_delete s cid).1) :=
  ⟨fun inp newId => create_preserves_inv s hinv inp newId,
   fun cid inp => edit_preserves_inv s hinv hnodup cid inp,
   fun cid => delete_preserves_inv s hinv hnodup cid⟩

/-- Claim C1 (amended) witness: creating a contract on a concrete in-stock
trailer preserves the invariant. -/
theorem sold_invariant_preserved_by_contract_ops_witness :
    soldIffContract (contract_create storeStock storeStock inpNew 5).1 :=
  (sold_invariant_preserved_by_contract_ops storeStock (by decide)
    (by decide)).1 inpNew 5

theorem find?_setTrailerStatus_self (ts : List Trailer) (tid : Nat)
    (st : TrailerStatus) :
    (setTrailerStatus ts tid st).find? (fun t => t.id == tid)
      = (ts.find? (fun t => t.id == tid)).map
          (fun t => { t with status := st }) := by
  induction ts with
  | nil => rfl
  | cons x xs ih =>
    show ((if x.id == tid then { x with status := st } else x) ::
        setTrailerStatus xs tid st).find? (fun t => t.id == tid)
      = ((x :: xs).find? (fun t => t.id == tid)).map
          (fun t => { t with status := st })
    by_cases h : (x.id == tid) = true
    · rw [if_pos h]
      rw [List.find?_cons_of_pos _ (by simpa using h)]
      rw [show (x :: xs).find? (fun t => t.id == tid) = some x from
        List.find?_cons_of_pos _ h]
      simp
    · rw [Bool.not_eq_true] at h
      rw [if_neg (by rw [h]; simp)]
      rw [List.find?_cons_of_neg _ (by simp [h])]
      rw [show (x :: xs).find? (fun t => t.id == tid)
          = xs.find? (fun t => t.id == tid) from
        List.find?_cons_of_neg _ (by simp [h])]
      exact ih

/-- Claim C6: deleting a contract removes its row, and reverts the referenced
trailer to IN_STOCK exactly when no contract references that trailer after the
deletion; when another contract still references it the status is untouched
(in particular it stays SOLD when it was SOLD). -/
theorem contract_delete_reverts_status (s : Store) (cid : Nat)
    (contract : SalesContract) (tid : Nat)
    (hfc : s.contracts.find? (fun x => x.id == cid) = some contract)
    (htid : contract.trailer_id = some tid) :
    ((contract_delete s cid).1.contracts
        = s.contracts.filter (fun x => x.id != cid)) ∧
    (((contract_delete s cid).1.contracts.filter
        (fun c => c.trailer_id == some tid)).length = 0 →
      statusOf (contract_delete s cid).1 tid
        = (statusOf s tid).map (fun _ => TrailerStatus.IN_STOCK)) ∧
    (((contract_delete s cid).1.contracts.filter
        (fun c => c.trailer_id == some tid)).length ≠ 0 →
      statusOf (contract_delete s cid).1 tid = statusOf s tid) := by
  have heq : contract_delete s cid =
      ({ items := s.items,
         trailers :=
           match contract.trailer_id.bind
               (fun tid2 => s.trailers.find? (fun t => t.id == tid2)) with
           | none => s.trailers
           | some t =>
             if ((s.contracts.filter (fun x => x.id != cid)).filter
                 (fun c => c.trailer_id == some t.id)).length == 0 then
               setTrailerStatus s.trailers t.id TrailerStatus.IN_STOCK
             else s.trailers,
         contracts := s.contracts.filter (fun x => x.id != cid) }, true) := by
    unfold contract_delete
    rw [hfc]
  rw [htid] at heq
  simp only [Option.bind_eq_bind, Option.some_bind] at heq
  rw [heq]
  cases hft : s.trailers.find? (fun t => t.id == tid) with
  | none =>
    refine ⟨rfl, ?_, ?_⟩
    · intro _
      simp [statusOf, hft]
    · intro _
      rfl
  | some t =>
    have htt : t.id = tid := by
      have h2 := List.find?_some hft
      simpa using h2
    simp only []
    rw [htt]
    by_cases hlen : (((s.contracts.filter (fun x => x.id != cid)).filter
        (fun c => c.trailer_id == some tid)).length == 0) = true
    · rw [if_pos hlen]
      refine ⟨by trivial, ?_, ?_⟩
      · intro _
        simp [statusOf, find?_setTrailerStatus_self, hft, htt]
      · intro h
        exfalso
        apply h
        simpa using hlen
    · rw [if_neg (by rw [Bool.not_eq_true] at hlen; rw [hlen]; simp)]
      rw [Bool.not_eq_true] at hlen
      refine ⟨by trivial, ?_, ?_⟩
      · intro h
        exfalso
        rw [h] at hlen
        simp at hlen
      · intro _
        rfl

/-- Claim C6 witness: deleting the sole contract of a concrete sold trailer
reverts it to IN_STOCK. -/
theorem contract_delete_reverts_status_witness :
    statusOf (contract_delete storeSold 1).1 1 = some TrailerStatus.IN_STOCK := by
  have h := (contract_delete_reverts_status storeSold 1 contract1 1
    (by decide) (by decide)).2.1 (by decide)
  rw [h]
  decide

/-- Claim C5: Preregister is idempotent.  With a stored (non-blank) document
id, the handler returns that id and issues no remote call at all; starting
from an unregistered contract, two successive calls issue exactly one remote
registration and both return the same document id. -/
theorem preregister_idempotent (c : SalesContract) (d : String)
    (reg : Except String String) (upl : Except String Unit)
    (reg2 : Except String String) (upl2 : Except String Unit) (hd : d ≠ "") :
    (c.sigex_document_id = some d →
      contract_sigex_preregister c reg upl = (c, Except.ok d, [])) ∧
    (c.sigex_document_id = none → reg = Except.ok d → upl = Except.ok () →
      (contract_sigex_preregister c reg upl).2.1 = Except.ok d ∧
      (contract_sigex_preregister
          (contract_sigex_preregister c reg upl).1 reg2 upl2).2.1 = Except.ok d ∧
      (contract_sigex_preregister
          (contract_sigex_preregister c reg upl).1 reg2 upl2).2.2 = [] ∧
      ((contract_sigex_preregister c reg upl).2.2 ++
        (contract_sigex_preregister
          (contract_sigex_preregister c reg upl).1 reg2 upl2).2.2).count
        SigexCall.registerDoc = 1) := by
  constructor
  · intro hdoc
    unfold contract_sigex_preregister
    rw [hdoc]
    simp [truthyOptStr, hd]
  · intro hdoc hreg hupl
    subst hreg
    subst hupl
    unfold contract_sigex_preregister
    rw [hdoc]
    simp [truthyOptStr, hd, List.count_cons, List.count_nil]

/-- Claim C5 witness: concrete double call on an unregistered contract. -/
theorem preregister_idempotent_witness :
    (contract_sigex_preregister contractFresh (Except.ok "doc-1")
        (Except.ok ())).2.1 = Except.ok "doc-1" :=
  ((preregister_idempotent contractFresh "doc-1" (Except.ok "doc-1")
    (Except.ok ()) (Except.error "later") (Except.error "later2")
    (by decide)).2 rfl rfl rfl).1

/-- Claim C8: polling the QR status on a contract that lacks a stored document
id or operation id aborts with the precondition error (HTTP 400), issues no
remote call, and leaves the contract row untouched. -/
theorem qr_status_requires_ids (c : SalesContract)
    (remote : Except String QrStatusResponse)
    (h : (truthyOptStr c.sigex_document_id &&
      truthyOptStr c.sigex_operation_id) = false) :
    contract_sigex_qr_status c remote =
      (c, Except.error (HandlerError.precondition 400 "No active operation"), []) := by
  unfold contract_sigex_qr_status
  rw [h]
  simp

/-- Claim C8 witness: polling before Preregister on a concrete contract. -/
theorem qr_status_requires_ids_witness :
    contract_sigex_qr_status contractFresh (Except.error "unreachable") =
      (contractFresh,
       Except.error (HandlerError.precondition 400 "No active operation"), []) :=
  qr_status_requires_ids contractFresh (Except.error "unreachable") (by decide)

/-- Claim C9: when the remote call of Start QR signing fails, the contract row
is returned unchanged — `sigex_operation_id` and `sigex_last_status` keep
their previous values — and the two fields are assigned only on a successful
remote response. -/
theorem start_qr_failure_leaves_state (c : SalesContract)
    (remote : Except String String) :
    (∀ e, remote = Except.error e → (contract_sigex_start_qr c remote).1 = c) ∧
    ((contract_sigex_start_qr c remote).1 ≠ c →
      ∃ opId, remote = Except.ok opId ∧
        (contract_sigex_start_qr c remote).1 =
          { c with sigex_operation_id := some opId,
                   sigex_last_status := some "qr_started" }) := by
  unfold contract_sigex_start_qr
  by_cases h : truthyOptStr c.sigex_document_id = true
  · rw [if_pos h]
    cases remote with
    | error e =>
      constructor
      · intro _ _
        rfl
      · intro hne
        exact absurd rfl hne
    | ok opId =>
      constructor
      · intro e he
        exact Except.noConfusion he
      · intro _
        exact ⟨opId, rfl, rfl⟩
  · rw [Bool.not_eq_true] at h
    rw [if_neg (by rw [h]; simp)]
    constructor
    · intro _ _
      rfl
    · intro hne
      exact absurd rfl hne

/-- Claim C9 witness: a timed-out remote call on a concrete registered
contract leaves the row unchanged. -/
theorem start_qr_failure_leaves_state_witness :
    (contract_sigex_start_qr contractDoc (Except.error "timeout")).1 =
      contractDoc :=
  (start_qr_failure_leaves_state contractDoc (Except.error "timeout")).1
    "timeout" rfl

/-- Claim C10 counterexample: the spec's flag list says internal IDs are
hidden, which for the buildDDC request means `withoutID` set to `"true"`; the
view sends `withoutID` as `"false"` (IDs are shown, not hidden). -/
theorem ddc_withoutID_flag_counterexample :
    ("withoutID", "true") ∈ specDdcRenderingFlags ∧
    ("withoutID", "true") ∉ ddcParams contractDoc ∧
    ("withoutID", "false") ∈ ddcParams contractDoc := by
  refine ⟨by decide, by decide, by decide⟩

/-- Claim C10 (amended): fetching the signed-document card requires a stored
document id (precondition error otherwise, with no remote call); the request
carries exactly the fixed parameter list — show document content, signatures
and QR codes, show internal IDs (`withoutID=false`), no ID-link QR
(`qrWithIDLink=false`), the verified label, Russian — and on success the
handler returns the base64-decoded artifact. -/
theorem ddc_requires_doc_and_fixed_params (c : SalesContract)
    (remote : Except String String) (docId : String)
    (hdoc : c.sigex_document_id = some docId) (hne : docId ≠ "") :
    (∀ b64, remote = Except.ok b64 →
      contract_sigex_ddc c remote =
        (c, Except.ok (b64decode b64),
         [SigexCall.buildDDC docId (ddcParams c)])) ∧
    ddcParams c =
      [("fileName", sigexTitleForContract c),
       ("withoutDocumentVisualization", "false"),
       ("withoutSignaturesVisualization", "false"),
       ("withoutQRCodesInSignaturesVisualization", "false"),
       ("withoutID", "false"),
       ("qrWithIDLink", "false"),
       ("withLabelVerified", "true"),
       ("language", "ru")] ∧
    (∀ c2 : SalesContract, truthyOptStr c2.sigex_document_id = false →
      contract_sigex_ddc c2 remote =
        (c2, Except.error
          (HandlerError.precondition 400 "SIGEX document not preregistered"),
         [])) := by
  refine ⟨?_, rfl, ?_⟩
  · intro b64 hb
    subst hb
    unfold contract_sigex_ddc
    rw [hdoc]
    simp [truthyOptStr, hne]
  · intro c2 h2
    unfold contract_sigex_ddc
    rw [h2]
    simp

/-- Claim C10 (amended) witness: concrete fetch with a stored document id. -/
theorem ddc_requires_doc_and_fixed_params_witness :
    contract_sigex_ddc contractDoc (Except.ok "QUJD") =
      (contractDoc, Except.ok (b64decode "QUJD"),
       [SigexCall.buildDDC "doc-1" (ddcParams contractDoc)]) :=
  (ddc_requires_doc_and_fixed_params contractDoc (Except.ok "QUJD") "doc-1"
    rfl (by decide)).1 "QUJD" rfl

end Trailers
